import Mathlib

/-!
Verification of the SoftwareLoyalLight repository (client registry, item
catalog, purchase recording, sales/churn analytics dashboard).

The relational store is embedded from the SQL migrations
(`001_create_clients.sql`, `003_create_purchases.sql`): tables for clients,
items and purchases, a `check (quantity > 0)` constraint, a foreign key
`client_id references clients(id) on delete cascade`, a foreign key
`item_id references items(id) on delete restrict`, and a stored generated
column `total = quantity * (select price from items ...)` evaluated at
insert time.  Prices are modelled in cents (`Int`), timestamps as integer
day indices.

Frontend service functions (`services/analytics.ts`, `services/clients.ts`,
`services/auth.ts`, `services/ai.ts`, `pages/purchases.tsx`) are embedded
as pure functions over payload values.  The FastAPI backend that computes
the `/analytics/overview` aggregation and the `/ai` suggestions is not part
of the repository snapshot (only its callers, the SQL schema and the start
script are); those parts are modelled from the spec, and each such
definition's doc comment says so.
-/

namespace LoyalLight

/-- Row of `public.clients` (migration 001): id, name, optional email and
phone. -/
structure Client where
  id : Nat
  name : String
  email : Option String
  phone : Option String
deriving Repr, DecidableEq

/-- Row of `public.items` (migration 001, second file): id, name, price
(`numeric(10,2)`, modelled in cents). -/
structure Item where
  id : Nat
  name : String
  price : Int
deriving Repr, DecidableEq

/-- Row of `public.purchases` (migration 003): id, client_id, item_id,
quantity (`integer check (quantity > 0)`), the stored generated column
`total`, and `purchased_at` as a day index. -/
structure Purchase where
  id : Nat
  client_id : Nat
  item_id : Nat
  quantity : Int
  total : Int
  purchased_at : Int
deriving Repr, DecidableEq

/-- The relational store: the three tables. -/
structure Store where
  clients : List Client
  items : List Item
  purchases : List Purchase
deriving Repr, DecidableEq

/-- Errors surfaced by the store, matching the constraint kinds of the
migrations (check violation, foreign-key violation on insert, restrict
violation on delete, primary-key violation). -/
inductive DbError where
  | checkViolation
  | fkViolation
  | restrictViolation
  | pkViolation
deriving Repr, DecidableEq

/-- Membership test on the clients table (`client_id references
public.clients(id)`). -/
def Store.hasClient (s : Store) (cid : Nat) : Bool :=
  s.clients.any (fun c => c.id == cid)

/-- Lookup on the items table (`select price from public.items where
items.id = purchases.item_id`). -/
def Store.findItem (s : Store) (iid : Nat) : Option Item :=
  s.items.find? (fun it => it.id == iid)

/-- Membership test on the items table. -/
def Store.hasItem (s : Store) (iid : Nat) : Bool :=
  (s.findItem iid).isSome

/-- Insert into `public.clients`; the primary key rejects a duplicate id. -/
def Store.createClient (s : Store) (c : Client) : Except DbError Store :=
  if s.clients.any (fun c0 => c0.id == c.id) then .error .pkViolation
  else .ok { s with clients := s.clients ++ [c] }

/-- Insert into `public.items`; the primary key rejects a duplicate id. -/
def Store.createItem (s : Store) (it : Item) : Except DbError Store :=
  if s.items.any (fun it0 => it0.id == it.id) then .error .pkViolation
  else .ok { s with items := s.items ++ [it] }

/-- Insert into `public.purchases` (migration 003): the check constraint
rejects `quantity ≤ 0`, the foreign keys reject a missing client or item,
and the stored generated column records `quantity * price` with the price
read from the referenced item at insert time. -/
def Store.createPurchase (s : Store) (pid cid iid : Nat) (qty t : Int) :
    Except DbError Store :=
  if qty ≤ 0 then .error .checkViolation
  else if !s.hasClient cid then .error .fkViolation
  else
    match s.findItem iid with
    | none => .error .fkViolation
    | some it =>
        if s.purchases.any (fun p => p.id == pid) then .error .pkViolation
        else .ok { s with purchases := s.purchases ++
            [{ id := pid, client_id := cid, item_id := iid, quantity := qty,
               total := qty * it.price, purchased_at := t }] }

/-- Delete from `public.clients`: `on delete cascade` removes the client's
purchases together with the client row. -/
def Store.deleteClient (s : Store) (cid : Nat) : Store :=
  { s with clients := s.clients.filter (fun c => !(c.id == cid)),
           purchases := s.purchases.filter (fun p => !(p.client_id == cid)) }

/-- Delete from `public.items`: `on delete restrict` rejects the delete
while any purchase references the item. -/
def Store.deleteItem (s : Store) (iid : Nat) : Except DbError Store :=
  if s.purchases.any (fun p => p.item_id == iid) then .error .restrictViolation
  else .ok { s with items := s.items.filter (fun it => !(it.id == iid)) }

/-- Run a fallible write; a failed write leaves the store unchanged (the
store's transaction manager aborts the statement). -/
def execWrite (s : Store) (r : Except DbError Store) : Store :=
  match r with
  | .ok s2 => s2
  | .error _ => s

/-- Stores reachable from the empty database through the write operations
exposed by the API. -/
inductive Reachable : Store → Prop where
  | empty : Reachable ⟨[], [], []⟩
  | createClient (s : Store) (c : Client) : Reachable s →
      Reachable (execWrite s (s.createClient c))
  | createItem (s : Store) (it : Item) : Reachable s →
      Reachable (execWrite s (s.createItem it))
  | createPurchase (s : Store) (pid cid iid : Nat) (qty t : Int) :
      Reachable s → Reachable (execWrite s (s.createPurchase pid cid iid qty t))
  | deleteClient (s : Store) (cid : Nat) : Reachable s →
      Reachable (s.deleteClient cid)
  | deleteItem (s : Store) (iid : Nat) : Reachable s →
      Reachable (execWrite s (s.deleteItem iid))

/-- Referential and check invariant of the purchases table: every stored
purchase has positive quantity, its client row is present, its item row is
present, and its stored `total` is `quantity * price` of that item. -/
def StoreInv (s : Store) : Prop :=
  ∀ p ∈ s.purchases, 0 < p.quantity ∧ s.hasClient p.client_id = true ∧
    ∃ it, s.findItem p.item_id = some it ∧ p.total = p.quantity * it.price

/-- Purchase query filtered by client, as issued by the dashboard after a
client delete. -/
def Store.purchasesOf (s : Store) (cid : Nat) : List Purchase :=
  s.purchases.filter (fun p => p.client_id == cid)

/-- Displayed purchase total from `pages/purchases.tsx` (part_004, lines
202-205): `quantity * Number(itemsById.get(item_id)?.price ?? 0)` computed
with the current item price at render time. -/
def displayTotal (s : Store) (p : Purchase) : Int :=
  p.quantity * (match s.findItem p.item_id with
                | some it => it.price
                | none => 0)

lemma find?_append_of_some {α : Type} (p : α → Bool) {l : List α} {x : α}
    (h : l.find? p = some x) (l2 : List α) : (l ++ l2).find? p = some x := by
  induction l with
  | nil => simp [List.find?] at h
  | cons a t ih =>
    rw [List.cons_append]
    cases hpa : p a with
    | true =>
      rw [List.find?_cons_of_pos _ hpa] at h
      rw [List.find?_cons_of_pos _ hpa]
      exact h
    | false =>
      rw [List.find?_cons_of_neg _ (by simp [hpa])] at h
      rw [List.find?_cons_of_neg _ (by simp [hpa])]
      exact ih h

lemma find?_item_filter_ne {l : List Item} {iid k : Nat} (hk : k ≠ iid) :
    (l.filter (fun it => !(it.id == iid))).find? (fun it => it.id == k) =
      l.find? (fun it => it.id == k) := by
  induction l with
  | nil => rfl
  | cons a t ih =>
    by_cases ha : a.id = iid
    · have hik : (iid == k) = false := beq_false_of_ne (fun hkk => hk hkk.symm)
      simp [List.filter_cons, List.find?_cons, ha, hik, ih]
    · by_cases hk2 : a.id = k
      · simp [List.filter_cons, List.find?_cons, ha, hk2, hk]
      · simp [List.filter_cons, List.find?_cons, ha, hk2, hk, ih]

lemma hasClient_filter {clients : List Client} {cid pid : Nat} (hne : pid ≠ cid)
    (h : clients.any (fun c => c.id == pid) = true) :
    (clients.filter (fun c => !(c.id == cid))).any (fun c => c.id == pid) = true := by
  simp only [List.any_eq_true] at h ⊢
  obtain ⟨c, hc, hcid⟩ := h
  have hcp : c.id = pid := by simpa using hcid
  refine ⟨c, List.mem_filter.2 ⟨hc, ?_⟩, hcid⟩
  simp [hcp, hne]

lemma storeInv_createClient (s : Store) (c : Client) (h : StoreInv s) :
    StoreInv (execWrite s (s.createClient c)) := by
  unfold Store.createClient
  split
  · exact h
  · simp only [execWrite]
    intro p hp
    obtain ⟨hq, hc, it, hit, htot⟩ := h p hp
    refine ⟨hq, ?_, it, hit, htot⟩
    simp only [Store.hasClient] at hc ⊢
    simp [List.any_append, hc]

lemma storeInv_createItem (s : Store) (it0 : Item) (h : StoreInv s) :
    StoreInv (execWrite s (s.createItem it0)) := by
  unfold Store.createItem
  split
  · exact h
  · simp only [execWrite]
    intro p hp
    obtain ⟨hq, hc, it, hit, htot⟩ := h p hp
    refine ⟨hq, hc, it, ?_, htot⟩
    simp only [Store.findItem] at hit ⊢
    exact find?_append_of_some _ hit _

lemma storeInv_createPurchase (s : Store) (pid cid iid : Nat) (qty t : Int)
    (h : StoreInv s) : StoreInv (execWrite s (s.createPurchase pid cid iid qty t)) := by
  unfold Store.createPurchase
  split
  · exact h
  · rename_i hqty
    split
    · exact h
    · rename_i hcl
      split
      · exact h
      · rename_i it hfi
        split
        · exact h
        · simp only [execWrite]
          intro p hp
          simp only [List.mem_append, List.mem_singleton] at hp
          rcases hp with hp | hp
          · obtain ⟨hq, hc, it2, hit2, htot⟩ := h p hp
            exact ⟨hq, hc, it2, hit2, htot⟩
          · subst hp
            refine ⟨by show (0 : Int) < qty; omega, ?_, it, hfi, rfl⟩
            simpa using hcl

lemma storeInv_deleteClient (s : Store) (cid : Nat) (h : StoreInv s) :
    StoreInv (s.deleteClient cid) := by
  intro p hp
  simp only [Store.deleteClient, List.mem_filter] at hp
  obtain ⟨hp, hpc⟩ := hp
  have hne : p.client_id ≠ cid := by simpa using hpc
  obtain ⟨hq, hc, it, hit, htot⟩ := h p hp
  exact ⟨hq, hasClient_filter hne hc, it, hit, htot⟩

lemma storeInv_deleteItem (s : Store) (iid : Nat) (h : StoreInv s) :
    StoreInv (execWrite s (s.deleteItem iid)) := by
  unfold Store.deleteItem
  split
  · exact h
  · rename_i hno
    simp only [execWrite]
    intro p hp
    obtain ⟨hq, hc, it, hit, htot⟩ := h p hp
    have hne : p.item_id ≠ iid := by
      intro hcontra
      exact hno (List.any_eq_true.2 ⟨p, hp, by simp [hcontra]⟩)
    refine ⟨hq, hc, it, ?_, htot⟩
    simp only [Store.findItem] at hit ⊢
    rw [find?_item_filter_ne hne]
    exact hit

/-- Every reachable store satisfies the purchases invariant. -/
theorem reachable_storeInv {s : Store} (h : Reachable s) : StoreInv s := by
  induction h with
  | empty => intro p hp; simp at hp
  | createClient s c _ ih => exact storeInv_createClient s c ih
  | createItem s it _ ih => exact storeInv_createItem s it ih
  | createPurchase s pid cid iid qty t _ ih =>
      exact storeInv_createPurchase s pid cid iid qty t ih
  | deleteClient s cid _ ih => exact storeInv_deleteClient s cid ih
  | deleteItem s iid _ ih => exact storeInv_deleteItem s iid ih

/-- Claim C4: creating a Purchase with quantity ≤ 0 is rejected, creating a
Purchase referencing a missing Client or missing Item is rejected, a
rejected create leaves the store unchanged, and in every reachable store
every stored Purchase has positive quantity and references an existing
Client and Item. -/
theorem C4_purchase_creation_validated (s : Store) (pid cid iid : Nat) (qty t : Int) :
    (qty ≤ 0 → s.createPurchase pid cid iid qty t = .error .checkViolation) ∧
    (s.hasClient cid = false → ∃ e, s.createPurchase pid cid iid qty t = .error e) ∧
    (s.hasItem iid = false → ∃ e, s.createPurchase pid cid iid qty t = .error e) ∧
    (∀ e, s.createPurchase pid cid iid qty t = .error e →
      execWrite s (s.createPurchase pid cid iid qty t) = s) ∧
    (Reachable s → ∀ p ∈ s.purchases,
      0 < p.quantity ∧ s.hasClient p.client_id = true ∧ s.hasItem p.item_id = true) := by
  refine ⟨?_, ?_, ?_, ?_, ?_⟩
  · intro hq
    simp [Store.createPurchase, hq]
  · intro hcl
    by_cases hq : qty ≤ 0
    · exact ⟨.checkViolation, by simp [Store.createPurchase, hq]⟩
    · exact ⟨.fkViolation, by simp [Store.createPurchase, hq, hcl]⟩
  · intro hit
    by_cases hq : qty ≤ 0
    · exact ⟨.checkViolation, by simp [Store.createPurchase, hq]⟩
    · by_cases hcl : s.hasClient cid
      · have hfi : s.findItem iid = none := by
          simpa [Store.hasItem, Option.isSome_iff_exists] using hit
        exact ⟨.fkViolation, by simp [Store.createPurchase, hq, hcl, hfi]⟩
      · exact ⟨.fkViolation, by simp [Store.createPurchase, hq, hcl]⟩
  · intro e he
    simp [execWrite, he]
  · intro hr p hp
    obtain ⟨hq, hc, it, hit, _⟩ := reachable_storeInv hr p hp
    exact ⟨hq, hc, by simp [Store.hasItem, hit]⟩

/-- Witness for C4 at concrete inputs: a zero quantity is rejected with a
check violation on the empty store, a missing client is rejected, and the
rejected write leaves the store unchanged. -/
theorem C4_purchase_creation_validated_witness :
    Store.createPurchase ⟨[], [], []⟩ 1 1 1 0 0 = .error .checkViolation ∧
    (∃ e, Store.createPurchase ⟨[], [], []⟩ 1 2 3 5 0 = .error e) ∧
    execWrite ⟨[], [], []⟩ (Store.createPurchase ⟨[], [], []⟩ 1 1 1 0 0) = ⟨[], [], []⟩ := by
  refine ⟨(C4_purchase_creation_validated ⟨[], [], []⟩ 1 1 1 0 0).1 (by decide), ?_, ?_⟩
  · exact (C4_purchase_creation_validated ⟨[], [], []⟩ 1 2 3 5 0).2.1 (by decide)
  · exact (C4_purchase_creation_validated ⟨[], [], []⟩ 1 1 1 0 0).2.2.2.1 .checkViolation
      ((C4_purchase_creation_validated ⟨[], [], []⟩ 1 1 1 0 0).1 (by decide))

/-- Claim C5: deleting a Client cascades to its Purchases, so a subsequent
purchase query for that client returns the empty list; deleting an Item
that is referenced by at least one Purchase is rejected, the store is
unchanged and the Item remains queryable. -/
theorem C5_delete_cascade_and_restrict (s : Store) (cid iid : Nat) :
    (s.deleteClient cid).purchasesOf cid = [] ∧
    (s.purchases.any (fun p => p.item_id == iid) = true →
      s.deleteItem iid = .error .restrictViolation ∧
      execWrite s (s.deleteItem iid) = s ∧
      (execWrite s (s.deleteItem iid)).findItem iid = s.findItem iid) := by
  constructor
  · simp only [Store.deleteClient, Store.purchasesOf]
    induction s.purchases with
    | nil => rfl
    | cons a t ih =>
      by_cases h : a.client_id = cid
      · simp [List.filter_cons, h, ih]
      · simp [List.filter_cons, h, ih]
  · intro href
    refine ⟨by simp [Store.deleteItem, href], ?_, ?_⟩
    · simp [Store.deleteItem, href, execWrite]
    · simp [Store.deleteItem, href, execWrite]

/-- Witness for C5 at a concrete store: one client, one item, one purchase
referencing the item; the item delete is rejected and the item stays
queryable, and deleting the client empties its purchase list. -/
theorem C5_delete_cascade_and_restrict_witness :
    (Store.deleteClient ⟨[⟨1, "c", none, none⟩], [⟨2, "i", 100⟩],
        [⟨1, 1, 2, 1, 100, 0⟩]⟩ 1).purchasesOf 1 = [] ∧
    Store.deleteItem (⟨[⟨1, "c", none, none⟩], [⟨2, "i", 100⟩],
        [⟨1, 1, 2, 1, 100, 0⟩]⟩ : Store) 2 = .error .restrictViolation := by
  refine ⟨(C5_delete_cascade_and_restrict _ 1 2).1, ?_⟩
  exact ((C5_delete_cascade_and_restrict _ 1 2).2 (by decide)).1

/-- Store reached from the empty database by creating one client, one
item with the negative price -100 (nothing in the schema or the item
service forbids it: `price numeric(10,2) not null` has no check) and one
purchase of quantity 1. -/
def badStore : Store :=
  execWrite (execWrite (execWrite ⟨[], [], []⟩
    (Store.createClient ⟨[], [], []⟩ ⟨1, "c", none, none⟩))
    (Store.createItem (execWrite ⟨[], [], []⟩
      (Store.createClient ⟨[], [], []⟩ ⟨1, "c", none, none⟩)) ⟨2, "i", -100⟩))
    (Store.createPurchase (execWrite (execWrite ⟨[], [], []⟩
      (Store.createClient ⟨[], [], []⟩ ⟨1, "c", none, none⟩))
      (Store.createItem (execWrite ⟨[], [], []⟩
        (Store.createClient ⟨[], [], []⟩ ⟨1, "c", none, none⟩)) ⟨2, "i", -100⟩))
      7 1 2 1 0)

lemma badStore_reachable : Reachable badStore :=
  Reachable.createPurchase _ 7 1 2 1 0
    (Reachable.createItem _ ⟨2, "i", -100⟩
      (Reachable.createClient _ ⟨1, "c", none, none⟩ Reachable.empty))

/-- Counterexample to C6 as stated: the schema places no check on the item
price, so the reachable store holding an item priced -100 stores a
purchase whose generated total is 1 * -100 = -100 < 0 — "every stored
Purchase has a non-negative total" is false. -/
theorem C6_counterexample_negative_price :
    Reachable badStore ∧
    (⟨7, 1, 2, 1, -100, 0⟩ : Purchase) ∈ badStore.purchases ∧
    (⟨7, 1, 2, 1, -100, 0⟩ : Purchase).total < 0 :=
  ⟨badStore_reachable, by decide, by decide⟩

/-- Claim C6 (amended): in every reachable store every stored Purchase
references an existing Item, its stored total equals quantity times that
Item's unit price, the total displayed by the purchases page (computed
from the current item price at query time) equals the stored insert-time
total — the single pricing policy, since Items are never updated — and
the total is non-negative whenever the referenced Item's price is
non-negative; the schema has no check on price, so a negative-priced item
yields a negative total. -/
theorem C6_total_policy_amended (s : Store) (h : Reachable s) :
    ∀ p ∈ s.purchases, ∃ it, s.findItem p.item_id = some it ∧
      p.total = p.quantity * it.price ∧
      displayTotal s p = p.total ∧
      (0 ≤ it.price → 0 ≤ p.total) := by
  intro p hp
  obtain ⟨hq, _, it, hit, htot⟩ := reachable_storeInv h p hp
  refine ⟨it, hit, htot, by simp [displayTotal, hit, htot], ?_⟩
  intro hpr
  rw [htot]
  exact mul_nonneg (by omega) hpr

/-- Sample store reached from the empty database by creating one client,
one item priced 100 and one purchase of quantity 3. -/
def sampleStore : Store :=
  execWrite (execWrite (execWrite ⟨[], [], []⟩
    (Store.createClient ⟨[], [], []⟩ ⟨1, "c", none, none⟩))
    (Store.createItem (execWrite ⟨[], [], []⟩
      (Store.createClient ⟨[], [], []⟩ ⟨1, "c", none, none⟩)) ⟨2, "i", 100⟩))
    (Store.createPurchase (execWrite (execWrite ⟨[], [], []⟩
      (Store.createClient ⟨[], [], []⟩ ⟨1, "c", none, none⟩))
      (Store.createItem (execWrite ⟨[], [], []⟩
        (Store.createClient ⟨[], [], []⟩ ⟨1, "c", none, none⟩)) ⟨2, "i", 100⟩))
      7 1 2 3 0)

lemma sampleStore_reachable : Reachable sampleStore :=
  Reachable.createPurchase _ 7 1 2 3 0
    (Reachable.createItem _ ⟨2, "i", 100⟩
      (Reachable.createClient _ ⟨1, "c", none, none⟩ Reachable.empty))

/-- Witness for C6 (amended): in the sample store the displayed total of
the stored purchase equals its stored total 300 = 3 * 100, and since the
referenced item's price 100 is non-negative the total is non-negative. -/
theorem C6_total_policy_amended_witness :
    displayTotal sampleStore ⟨7, 1, 2, 3, 300, 0⟩ =
      (⟨7, 1, 2, 3, 300, 0⟩ : Purchase).total ∧
    (0 : Int) ≤ (⟨7, 1, 2, 3, 300, 0⟩ : Purchase).total := by
  obtain ⟨it, h1, h2, h3, h4⟩ := C6_total_policy_amended sampleStore
    sampleStore_reachable ⟨7, 1, 2, 3, 300, 0⟩ (by decide)
  have h1c : sampleStore.findItem 2 = some it := h1
  have he : sampleStore.findItem 2 = some ⟨2, "i", 100⟩ := by decide
  have hitval : it = ⟨2, "i", 100⟩ := Option.some.inj (h1c.symm.trans he)
  refine ⟨h3, h4 ?_⟩
  rw [hitval]
  decide

/-- `SalesPoint` from `services/analytics.ts`: one revenue point per day. -/
structure SalesPoint where
  day : Int
  revenue : Int
deriving Repr, DecidableEq

/-- `TopCustomer` from `services/analytics.ts`. -/
structure TopCustomer where
  client_id : Nat
  client_name : String
  orders_count : Nat
  total_spent : Int
deriving Repr, DecidableEq

/-- `TopProduct` from `services/analytics.ts`. -/
structure TopProduct where
  item_id : Nat
  item_name : String
  units_sold : Int
  revenue : Int
deriving Repr, DecidableEq

/-- `ChurnRisk` from `services/analytics.ts`. -/
structure ChurnRiskEntry where
  client_id : Nat
  name : String
  last_purchase_at : Option Int
  churn_score : Int
deriving Repr, DecidableEq

/-- Raw `/analytics/overview` payload as seen by the frontend: each of the
four collections may be absent or not an array (`none`). -/
structure RawOverview where
  topCustomers : Option (List TopCustomer)
  topProducts : Option (List TopProduct)
  trend7d : Option (List SalesPoint)
  churnRisk : Option (List ChurnRiskEntry)
deriving Repr, DecidableEq

/-- `Overview` from `services/analytics.ts`: the normalized result. -/
structure Overview where
  topCustomers : List TopCustomer
  topProducts : List TopProduct
  trend7d : List SalesPoint
  churnRisk : List ChurnRiskEntry
deriving Repr, DecidableEq

/-- `getOverview` from `services/analytics.ts` (part_013 lines 40-49 and the
corrected version lines 46-89): normalizes each collection of the payload
with `Array.isArray(x) ? x : []`. -/
def getOverview (data : RawOverview) : Overview :=
  { topCustomers := data.topCustomers.getD [],
    topProducts := data.topProducts.getD [],
    trend7d := data.trend7d.getD [],
    churnRisk := data.churnRisk.getD [] }

/-- `getSalesTrend7d` from `services/analytics.ts`: returns `o.trend7d`. -/
def getSalesTrend7d (data : RawOverview) : List SalesPoint :=
  (getOverview data).trend7d

/-- `getTopCustomers90d(limit)` from `services/analytics.ts`:
`o.topCustomers.slice(0, limit)`. -/
def getTopCustomers90d (limit : Nat) (data : RawOverview) : List TopCustomer :=
  (getOverview data).topCustomers.take limit

/-- `getTopProducts90d(limit)` from `services/analytics.ts`:
`o.topProducts.slice(0, limit)`. -/
def getTopProducts90d (limit : Nat) (data : RawOverview) : List TopProduct :=
  (getOverview data).topProducts.take limit

/-- `getChurnRisk(limit)` from `services/analytics.ts`:
`o.churnRisk.slice(0, limit)`. -/
def getChurnRisk (limit : Nat) (data : RawOverview) : List ChurnRiskEntry :=
  (getOverview data).churnRisk.take limit

/-- Modelled from the spec: membership of a purchase in the trailing
window of `windowDays` days ending today (spec §4.1, glossary "Trend
window"); the backend aggregation service is not in the repository
snapshot. -/
def inWindow (windowDays : Nat) (today : Int) (p : Purchase) : Bool :=
  (today - windowDays < p.purchased_at) && (p.purchased_at ≤ today)

/-- Modelled from the spec: revenue summed over the purchases of one
calendar day (spec §4.1 `getSalesTrend`). -/
def revenueOn (ps : List Purchase) (d : Int) : Int :=
  ((ps.filter (fun p => p.purchased_at == d)).map (fun p => p.total)).sum

/-- Modelled from the spec: `getSalesTrend(days)` returns one revenue point
per calendar day over the trailing window, including zero-revenue days,
ordered chronologically (spec §4.1); the backend is not in the repository
snapshot. -/
def salesTrend (days : Nat) (today : Int) (ps : List Purchase) : List SalesPoint :=
  (List.range days).map (fun (i : Nat) =>
    { day := today - (days : Int) + 1 + (i : Int),
      revenue := revenueOn ps (today - (days : Int) + 1 + (i : Int)) })

/-- Ranking order used by the aggregation service: descending by the
metric, ties broken by ascending entity id for determinism (spec §4.1). -/
def rankRel (a b : Nat × Int) : Prop :=
  b.2 < a.2 ∨ (a.2 = b.2 ∧ a.1 ≤ b.1)

instance : DecidableRel rankRel := fun a b => by
  unfold rankRel
  infer_instance

instance : IsTotal (Nat × Int) rankRel :=
  ⟨by intro a b; simp only [rankRel]; omega⟩

instance : IsTrans (Nat × Int) rankRel :=
  ⟨by intro a b c; simp only [rankRel]; omega⟩

/-- Modelled from the spec: rank the distinct keys of a purchase set
descending by a metric, ties broken by id (spec §4.1). -/
def rankBy (keys : List Nat) (score : Nat → Int) : List (Nat × Int) :=
  List.insertionSort rankRel (keys.dedup.map (fun k => (k, score k)))

/-- Purchases of the store that fall in the trailing window. -/
def windowPurchases (windowDays : Nat) (today : Int) (st : Store) : List Purchase :=
  st.purchases.filter (inWindow windowDays today)

/-- Summed purchase total of one client over a purchase set. -/
def customerSpend (w : List Purchase) (cid : Nat) : Int :=
  ((w.filter (fun p => p.client_id == cid)).map (fun p => p.total)).sum

/-- Number of orders of one client over a purchase set. -/
def customerOrders (w : List Purchase) (cid : Nat) : Nat :=
  (w.filter (fun p => p.client_id == cid)).length

/-- Units sold of one item over a purchase set. -/
def productUnits (w : List Purchase) (iid : Nat) : Int :=
  ((w.filter (fun p => p.item_id == iid)).map (fun p => p.quantity)).sum

/-- Revenue of one item over a purchase set. -/
def productRevenue (w : List Purchase) (iid : Nat) : Int :=
  ((w.filter (fun p => p.item_id == iid)).map (fun p => p.total)).sum

/-- Name lookup on the clients table, empty string when absent. -/
def clientNameOf (st : Store) (cid : Nat) : String :=
  match st.clients.find? (fun c => c.id == cid) with
  | some c => c.name
  | none => ""

/-- Name lookup on the items table, empty string when absent. -/
def itemNameOf (st : Store) (iid : Nat) : String :=
  match st.items.find? (fun it => it.id == iid) with
  | some it => it.name
  | none => ""

/-- Assemble a `TopCustomer` row from a ranked (client id, spend) pair. -/
def mkTopCustomer (st : Store) (w : List Purchase) (q : Nat × Int) : TopCustomer :=
  { client_id := q.1, client_name := clientNameOf st q.1,
    orders_count := customerOrders w q.1, total_spent := q.2 }

/-- Assemble a `TopProduct` row from a ranked (item id, units) pair. -/
def mkTopProduct (st : Store) (w : List Purchase) (q : Nat × Int) : TopProduct :=
  { item_id := q.1, item_name := itemNameOf st q.1,
    units_sold := q.2, revenue := productRevenue w q.1 }

/-- Modelled from the spec: `getTopCustomers(windowDays=90, limit)` ranks
clients descending by summed purchase total within the window, ties broken
by client identity (spec §4.1); the backend is not in the repository
snapshot.  The `limit` cut happens in the frontend helper. -/
def topCustomersB (windowDays : Nat) (today : Int) (st : Store) : List TopCustomer :=
  (rankBy ((windowPurchases windowDays today st).map (fun p => p.client_id))
      (customerSpend (windowPurchases windowDays today st))).map
    (mkTopCustomer st (windowPurchases windowDays today st))

/-- Modelled from the spec: `getTopProducts(windowDays=90, limit)` ranks
items descending by units sold within the window, ties broken by item
identity (spec §4.1); the backend is not in the repository snapshot. -/
def topProductsB (windowDays : Nat) (today : Int) (st : Store) : List TopProduct :=
  (rankBy ((windowPurchases windowDays today st).map (fun p => p.item_id))
      (productUnits (windowPurchases windowDays today st))).map
    (mkTopProduct st (windowPurchases windowDays today st))

/-- Timestamp of the most recent purchase of a client, `none` when the
client never purchased. -/
def lastPurchaseAt (ps : List Purchase) (cid : Nat) : Option Int :=
  ((ps.filter (fun p => p.client_id == cid)).map (fun p => p.purchased_at)).max?

/-- Modelled from the spec: days since the most recent purchase of a
client, `none` as the "never purchased" sentinel (spec §4.1
`getChurnRisk`). -/
def daysSinceLast (ps : List Purchase) (today : Int) (cid : Nat) : Option Nat :=
  match lastPurchaseAt ps cid with
  | none => none
  | some d => some (today - d).toNat

/-- Modelled from the spec: the churn score maps recency into a 0-100 risk
score via a monotonic step function, longer recency giving a higher score,
and a client that never purchased gets the defined maximum (spec §4.1,
§8); the thresholds mirror the dashboard's 70/40 badge bands
(pages/clients.tsx).  The backend is not in the repository snapshot. -/
def churnScore : Option Nat → Int
  | none => 100
  | some d =>
      if 90 ≤ d then 90
      else if 60 ≤ d then 70
      else if 30 ≤ d then 40
      else if 14 ≤ d then 20
      else 5

/-- Modelled from the spec: `getChurnRisk` returns the clients ranked
descending by churn score (spec §4.1); the backend is not in the
repository snapshot. -/
def churnRiskB (today : Int) (st : Store) : List ChurnRiskEntry :=
  (rankBy (st.clients.map (fun c => c.id))
      (fun cid => churnScore (daysSinceLast st.purchases today cid))).map
    (fun q => { client_id := q.1, name := clientNameOf st q.1,
                last_purchase_at := lastPurchaseAt st.purchases q.1,
                churn_score := q.2 })

/-- Modelled from the spec: the `/analytics/overview` response carries the
four aggregation results (spec §6); the backend is not in the repository
snapshot. -/
def overviewB (today : Int) (st : Store) : RawOverview :=
  { topCustomers := some (topCustomersB 90 today st),
    topProducts := some (topProductsB 90 today st),
    trend7d := some (salesTrend 7 today st.purchases),
    churnRisk := some (churnRiskB today st) }

/-- Descending spend order with ties broken by client id, on assembled
`TopCustomer` rows. -/
def TCrel (a b : TopCustomer) : Prop :=
  b.total_spent < a.total_spent ∨
    (a.total_spent = b.total_spent ∧ a.client_id ≤ b.client_id)

/-- Descending units order with ties broken by item id, on assembled
`TopProduct` rows. -/
def TPrel (a b : TopProduct) : Prop :=
  b.units_sold < a.units_sold ∨
    (a.units_sold = b.units_sold ∧ a.item_id ≤ b.item_id)

/-- Descending churn-score order with ties broken by client id. -/
def CRrel (a b : ChurnRiskEntry) : Prop :=
  b.churn_score < a.churn_score ∨
    (a.churn_score = b.churn_score ∧ a.client_id ≤ b.client_id)

lemma rankBy_sorted (keys : List Nat) (score : Nat → Int) :
    (rankBy keys score).Pairwise rankRel :=
  List.sorted_insertionSort rankRel _

lemma rankBy_perm (keys : List Nat) (score : Nat → Int) :
    List.Perm (rankBy keys score) (keys.dedup.map (fun k => (k, score k))) :=
  List.perm_insertionSort rankRel _

lemma rankBy_fst_perm (keys : List Nat) (score : Nat → Int) :
    List.Perm ((rankBy keys score).map Prod.fst) keys.dedup := by
  have h := (rankBy_perm keys score).map Prod.fst
  rw [List.map_map] at h
  have hid : (Prod.fst ∘ fun k : Nat => (k, score k)) = id := rfl
  rw [hid, List.map_id] at h
  exact h

lemma rankBy_fst_nodup (keys : List Nat) (score : Nat → Int) :
    ((rankBy keys score).map Prod.fst).Nodup :=
  ((rankBy_fst_perm keys score).nodup_iff).2 keys.nodup_dedup

lemma rankBy_length (keys : List Nat) (score : Nat → Int) :
    (rankBy keys score).length = keys.dedup.length := by
  have h := (rankBy_perm keys score).length_eq
  simpa using h

lemma rankBy_eq_nil_iff (keys : List Nat) (score : Nat → Int) :
    rankBy keys score = [] ↔ keys = [] := by
  rw [← List.length_eq_zero, rankBy_length, List.length_eq_zero,
    List.dedup_eq_nil]

lemma topCustomersB_pairwise (wd : Nat) (today : Int) (st : Store) :
    (topCustomersB wd today st).Pairwise TCrel := by
  unfold topCustomersB
  rw [List.pairwise_map]
  exact (rankBy_sorted _ _).imp (fun hab => hab)

lemma topProductsB_pairwise (wd : Nat) (today : Int) (st : Store) :
    (topProductsB wd today st).Pairwise TPrel := by
  unfold topProductsB
  rw [List.pairwise_map]
  exact (rankBy_sorted _ _).imp (fun hab => hab)

lemma churnRiskB_pairwise (today : Int) (st : Store) :
    (churnRiskB today st).Pairwise CRrel := by
  unfold churnRiskB
  rw [List.pairwise_map]
  exact (rankBy_sorted _ _).imp (fun hab => hab)

lemma topCustomersB_map_fst (wd : Nat) (today : Int) (st : Store) :
    (topCustomersB wd today st).map (fun tc => tc.client_id) =
      (rankBy ((windowPurchases wd today st).map (fun p => p.client_id))
        (customerSpend (windowPurchases wd today st))).map Prod.fst := by
  unfold topCustomersB
  rw [List.map_map]
  rfl

lemma topProductsB_map_fst (wd : Nat) (today : Int) (st : Store) :
    (topProductsB wd today st).map (fun tp => tp.item_id) =
      (rankBy ((windowPurchases wd today st).map (fun p => p.item_id))
        (productUnits (windowPurchases wd today st))).map Prod.fst := by
  unfold topProductsB
  rw [List.map_map]
  rfl

lemma getTopCustomers90d_overviewB (limit : Nat) (today : Int) (st : Store) :
    getTopCustomers90d limit (overviewB today st) =
      (topCustomersB 90 today st).take limit := by
  simp [getTopCustomers90d, getOverview, overviewB]

lemma getTopProducts90d_overviewB (limit : Nat) (today : Int) (st : Store) :
    getTopProducts90d limit (overviewB today st) =
      (topProductsB 90 today st).take limit := by
  simp [getTopProducts90d, getOverview, overviewB]

lemma getChurnRisk_overviewB (limit : Nat) (today : Int) (st : Store) :
    getChurnRisk limit (overviewB today st) =
      (churnRiskB today st).take limit := by
  simp [getChurnRisk, getOverview, overviewB]

lemma salesTrend_length (days : Nat) (today : Int) (ps : List Purchase) :
    (salesTrend days today ps).length = days := by
  unfold salesTrend
  rw [List.length_map, List.length_range]

lemma salesTrend_pairwise (days : Nat) (today : Int) (ps : List Purchase) :
    (salesTrend days today ps).Pairwise (fun a b => a.day < b.day) := by
  unfold salesTrend
  rw [List.pairwise_map]
  apply (List.pairwise_lt_range days).imp
  intro a b hab
  show today - days + 1 + a < today - days + 1 + b
  omega

/-- Claim C7: aggregation reads never fail on empty data: `getOverview`
always produces four collections, each equal to the payload's collection
when that field is an array and empty when the field is absent or not an
array, so an empty result set is a valid, non-error result. -/
theorem C7_overview_never_fails (data : RawOverview) :
    (data.topCustomers = none → (getOverview data).topCustomers = []) ∧
    (data.topProducts = none → (getOverview data).topProducts = []) ∧
    (data.trend7d = none → (getOverview data).trend7d = []) ∧
    (data.churnRisk = none → (getOverview data).churnRisk = []) ∧
    (∀ l, data.topCustomers = some l → (getOverview data).topCustomers = l) ∧
    (∀ l, data.topProducts = some l → (getOverview data).topProducts = l) ∧
    (∀ l, data.trend7d = some l → (getOverview data).trend7d = l) ∧
    (∀ l, data.churnRisk = some l → (getOverview data).churnRisk = l) := by
  refine ⟨?_, ?_, ?_, ?_, ?_, ?_, ?_, ?_⟩
  · intro h; simp [getOverview, h]
  · intro h; simp [getOverview, h]
  · intro h; simp [getOverview, h]
  · intro h; simp [getOverview, h]
  · intro l h; simp [getOverview, h]
  · intro l h; simp [getOverview, h]
  · intro l h; simp [getOverview, h]
  · intro l h; simp [getOverview, h]

/-- Witness for C7: the all-absent payload normalizes to four empty
collections, and an explicitly empty trend field stays empty. -/
theorem C7_overview_never_fails_witness :
    (getOverview ⟨none, none, none, none⟩).topCustomers = [] ∧
    (getOverview ⟨none, none, none, none⟩).topProducts = [] ∧
    (getOverview ⟨none, none, none, none⟩).trend7d = [] ∧
    (getOverview ⟨none, none, none, none⟩).churnRisk = [] ∧
    (getOverview ⟨some [], some [], some [], some []⟩).trend7d = [] :=
  ⟨(C7_overview_never_fails ⟨none, none, none, none⟩).1 rfl,
   (C7_overview_never_fails ⟨none, none, none, none⟩).2.1 rfl,
   (C7_overview_never_fails ⟨none, none, none, none⟩).2.2.1 rfl,
   (C7_overview_never_fails ⟨none, none, none, none⟩).2.2.2.1 rfl,
   (C7_overview_never_fails ⟨some [], some [], some [], some []⟩).2.2.2.2.2.2.1 [] rfl⟩

/-- Claim C1: `getSalesTrend(days=N)` returns exactly N revenue points,
one per calendar day of the trailing window (zero-revenue days included),
with non-negative revenue whenever the stored purchase totals are
non-negative, ordered oldest to newest; and the frontend
`getSalesTrend7d`, fed from the overview endpoint, returns exactly 7
chronologically ordered points. -/
theorem C1_sales_trend_window (days : Nat) (today : Int) (ps : List Purchase)
    (st : Store) (hpos : ∀ p ∈ ps, 0 ≤ p.total) :
    (salesTrend days today ps).length = days ∧
    (∀ pt ∈ salesTrend days today ps, 0 ≤ pt.revenue) ∧
    (salesTrend days today ps).Pairwise (fun a b => a.day < b.day) ∧
    (∀ i, i < days → (salesTrend days today ps)[i]? =
      some ⟨today - days + 1 + i, revenueOn ps (today - days + 1 + i)⟩) ∧
    getSalesTrend7d (overviewB today st) = salesTrend 7 today st.purchases ∧
    (getSalesTrend7d (overviewB today st)).length = 7 ∧
    (getSalesTrend7d (overviewB today st)).Pairwise (fun a b => a.day < b.day) := by
  have hcomp : getSalesTrend7d (overviewB today st) = salesTrend 7 today st.purchases := by
    simp [getSalesTrend7d, getOverview, overviewB]
  refine ⟨salesTrend_length days today ps, ?_, salesTrend_pairwise days today ps,
    ?_, hcomp, ?_, ?_⟩
  · intro pt hpt
    unfold salesTrend at hpt
    rw [List.mem_map] at hpt
    obtain ⟨i, _, rfl⟩ := hpt
    apply List.sum_nonneg
    intro x hx
    rw [List.mem_map] at hx
    obtain ⟨p, hp, rfl⟩ := hx
    exact hpos p (List.mem_filter.1 hp).1
  · intro i h
    simp [salesTrend, List.getElem?_map, List.getElem?_range, h]
  · rw [hcomp, salesTrend_length]
  · rw [hcomp]
    exact salesTrend_pairwise 7 today st.purchases

/-- Witness for C1 on the empty purchase set: the trend has exactly 7
points and the frontend helper returns exactly 7 points. -/
theorem C1_sales_trend_window_witness :
    (salesTrend 7 5 []).length = 7 ∧
    (getSalesTrend7d (overviewB 5 ⟨[], [], []⟩)).length = 7 :=
  ⟨(C1_sales_trend_window 7 5 [] ⟨[], [], []⟩ (by simp)).1,
   (C1_sales_trend_window 7 5 [] ⟨[], [], []⟩ (by simp)).2.2.2.2.2.1⟩

/-- Claim C2: `getTopCustomers90d(limit)` and `getTopProducts90d(limit)`
return lists sorted descending by summed spend / units sold with ties
broken by entity identity; limit 0 gives the empty list, at most `limit`
elements are returned, no entity appears twice, and when `limit` is at
least the number of distinct entities in the window every one of them
appears exactly once. -/
theorem C2_top_rankings (limit : Nat) (today : Int) (st : Store) :
    (getTopCustomers90d limit (overviewB today st)).Pairwise TCrel ∧
    (getTopProducts90d limit (overviewB today st)).Pairwise TPrel ∧
    getTopCustomers90d 0 (overviewB today st) = [] ∧
    getTopProducts90d 0 (overviewB today st) = [] ∧
    (getTopCustomers90d limit (overviewB today st)).length ≤ limit ∧
    (getTopProducts90d limit (overviewB today st)).length ≤ limit ∧
    ((getTopCustomers90d limit (overviewB today st)).map (fun tc => tc.client_id)).Nodup ∧
    ((getTopProducts90d limit (overviewB today st)).map (fun tp => tp.item_id)).Nodup ∧
    (((windowPurchases 90 today st).map (fun p => p.client_id)).dedup.length ≤ limit →
      List.Perm
        ((getTopCustomers90d limit (overviewB today st)).map (fun tc => tc.client_id))
        ((windowPurchases 90 today st).map (fun p => p.client_id)).dedup) ∧
    (((windowPurchases 90 today st).map (fun p => p.item_id)).dedup.length ≤ limit →
      List.Perm
        ((getTopProducts90d limit (overviewB today st)).map (fun tp => tp.item_id))
        ((windowPurchases 90 today st).map (fun p => p.item_id)).dedup) := by
  have hlenC : (topCustomersB 90 today st).length =
      ((windowPurchases 90 today st).map (fun p => p.client_id)).dedup.length := by
    unfold topCustomersB
    rw [List.length_map, rankBy_length]
  have hlenP : (topProductsB 90 today st).length =
      ((windowPurchases 90 today st).map (fun p => p.item_id)).dedup.length := by
    unfold topProductsB
    rw [List.length_map, rankBy_length]
  refine ⟨?_, ?_, ?_, ?_, ?_, ?_, ?_, ?_, ?_, ?_⟩
  · rw [getTopCustomers90d_overviewB]
    exact (topCustomersB_pairwise 90 today st).sublist (List.take_sublist _ _)
  · rw [getTopProducts90d_overviewB]
    exact (topProductsB_pairwise 90 today st).sublist (List.take_sublist _ _)
  · rw [getTopCustomers90d_overviewB, List.take_zero]
  · rw [getTopProducts90d_overviewB, List.take_zero]
  · rw [getTopCustomers90d_overviewB, List.length_take]
    omega
  · rw [getTopProducts90d_overviewB, List.length_take]
    omega
  · rw [getTopCustomers90d_overviewB]
    apply List.Nodup.sublist ((List.take_sublist _ _).map _)
    rw [topCustomersB_map_fst]
    exact rankBy_fst_nodup _ _
  · rw [getTopProducts90d_overviewB]
    apply List.Nodup.sublist ((List.take_sublist _ _).map _)
    rw [topProductsB_map_fst]
    exact rankBy_fst_nodup _ _
  · intro hle
    rw [getTopCustomers90d_overviewB, List.take_of_length_le (by omega),
      topCustomersB_map_fst]
    exact rankBy_fst_perm _ _
  · intro hle
    rw [getTopProducts90d_overviewB, List.take_of_length_le (by omega),
      topProductsB_map_fst]
    exact rankBy_fst_perm _ _

/-- Witness for C2: on a concrete store with two purchases by the same
client over the same item, a large limit returns that single client /
single item exactly once. -/
theorem C2_top_rankings_witness :
    List.Perm
      ((getTopCustomers90d 5 (overviewB 0
          ⟨[⟨1, "c", none, none⟩], [⟨2, "i", 100⟩],
           [⟨10, 1, 2, 1, 100, 0⟩, ⟨11, 1, 2, 2, 200, 0⟩]⟩)).map (fun tc => tc.client_id))
      ((windowPurchases 90 0
          ⟨[⟨1, "c", none, none⟩], [⟨2, "i", 100⟩],
           [⟨10, 1, 2, 1, 100, 0⟩, ⟨11, 1, 2, 2, 200, 0⟩]⟩).map (fun p => p.client_id)).dedup ∧
    getTopCustomers90d 0 (overviewB 0
        ⟨[⟨1, "c", none, none⟩], [⟨2, "i", 100⟩],
         [⟨10, 1, 2, 1, 100, 0⟩, ⟨11, 1, 2, 2, 200, 0⟩]⟩) = [] :=
  ⟨(C2_top_rankings 5 0 _).2.2.2.2.2.2.2.2.1 (by decide),
   (C2_top_rankings 0 0 _).2.2.1⟩

/-- Recency order on the days-since-last-purchase value: `none` (never
purchased) is the maximal recency, otherwise compare the day counts. -/
def recLE (a b : Option Nat) : Prop :=
  match a, b with
  | _, none => True
  | none, some _ => False
  | some x, some y => x ≤ y

instance (a b : Option Nat) : Decidable (recLE a b) :=
  match a, b with
  | none, none => .isTrue trivial
  | some _, none => .isTrue trivial
  | none, some _ => .isFalse (fun h => h)
  | some x, some y => inferInstanceAs (Decidable (x ≤ y))

lemma churnScore_bounds (r : Option Nat) :
    0 ≤ churnScore r ∧ churnScore r ≤ 100 := by
  cases r with
  | none => constructor <;> simp [churnScore]
  | some d =>
      constructor <;> (simp only [churnScore]; split_ifs <;> omega)

lemma churnScore_mono {r1 r2 : Option Nat} (h : recLE r1 r2) :
    churnScore r1 ≤ churnScore r2 := by
  cases r1 with
  | none =>
      cases r2 with
      | none => exact le_refl _
      | some y => exact h.elim
  | some x =>
      cases r2 with
      | none => exact (churnScore_bounds (some x)).2
      | some y =>
          have hxy : x ≤ y := h
          simp only [churnScore]
          split_ifs <;> omega

/-- Claim C3: the churn score is monotonically non-decreasing in
days-since-last-purchase (never-purchased counting as maximal recency),
every score lies between 0 and 100, and the churn list returned through
the overview endpoint is ranked descending by score. -/
theorem C3_churn_score_monotone :
    (∀ r1 r2 : Option Nat, recLE r1 r2 → churnScore r1 ≤ churnScore r2) ∧
    (∀ r : Option Nat, 0 ≤ churnScore r ∧ churnScore r ≤ 100) ∧
    (∀ (ps : List Purchase) (today : Int) (c1 c2 : Nat),
      recLE (daysSinceLast ps today c1) (daysSinceLast ps today c2) →
      churnScore (daysSinceLast ps today c1) ≤ churnScore (daysSinceLast ps today c2)) ∧
    (∀ (today : Int) (st : Store) (limit : Nat),
      (getChurnRisk limit (overviewB today st)).Pairwise CRrel) := by
  refine ⟨fun r1 r2 h => churnScore_mono h, churnScore_bounds, ?_, ?_⟩
  · intro ps today c1 c2 h
    exact churnScore_mono h
  · intro today st limit
    rw [getChurnRisk_overviewB]
    exact (churnRiskB_pairwise today st).sublist (List.take_sublist _ _)

/-- Witness for C3: a 10-day recency scores no higher than a 95-day
recency, and the never-purchased sentinel scores 100, inside the bounds. -/
theorem C3_churn_score_monotone_witness :
    churnScore (some 10) ≤ churnScore (some 95) ∧
    (0 ≤ churnScore none ∧ churnScore none ≤ 100) :=
  ⟨C3_churn_score_monotone.1 (some 10) (some 95) (by decide),
   C3_churn_score_monotone.2.1 none⟩

/-- Error taxonomy of the HTTP API relevant to the suggestion endpoint
(spec §7). -/
inductive ApiError where
  | notFound
deriving Repr, DecidableEq

/-- `AISuggestion` from `services/ai.ts`: a suggestion carries a type and
a description. -/
structure AISuggestion where
  type : String
  description : String
deriving Repr, DecidableEq

/-- `ClientSuggestion` from `services/ai.ts`. -/
structure ClientSuggestion where
  client_id : Nat
  churn_score : Int
  last_purchase_days : Option Nat
  top_item_id : Option Nat
  suggestions : List AISuggestion
deriving Repr, DecidableEq

/-- Modelled from the spec: the most-purchased item of a client, `none`
when the client has no purchases (spec §4.2); the backend is not in the
repository snapshot. -/
def topItemOf (ps : List Purchase) (cid : Nat) : Option Nat :=
  ((rankBy ((ps.filter (fun p => p.client_id == cid)).map (fun p => p.item_id))
      (productUnits (ps.filter (fun p => p.client_id == cid)))).head?).map Prod.fst

/-- Modelled from the spec: the canned, templated recommendation list
derived from the churn score and the most-purchased item (spec §4.2);
the backend is not in the repository snapshot. -/
def suggestionsFor (score : Int) (topItem : Option Nat) : List AISuggestion :=
  (if 70 ≤ score then [⟨"winback", "Ofrece un descuento de reactivación"⟩] else []) ++
  (if 40 ≤ score then [⟨"reminder", "Envía un recordatorio personalizado"⟩] else []) ++
  (match topItem with
   | some _ => [⟨"crosssell", "Recomienda productos relacionados con su artículo favorito"⟩]
   | none => []) ++
  [⟨"loyalty", "Invita al cliente al programa de fidelidad"⟩]

/-- Modelled from the spec: `GET /ai/clients/{id}/suggestions` returns the
client's churn score, days since last purchase, most-purchased item and an
ordered list of suggestion objects, and fails with NotFound when the
client id does not exist (spec §4.2); the backend is not in the repository
snapshot.  The frontend `getClientSuggestions` (services/ai.ts lines
22-31) passes the response through unchanged. -/
def getClientSuggestionsB (st : Store) (today : Int) (cid : Nat) :
    Except ApiError ClientSuggestion :=
  if st.hasClient cid then
    .ok { client_id := cid,
          churn_score := churnScore (daysSinceLast st.purchases today cid),
          last_purchase_days := daysSinceLast st.purchases today cid,
          top_item_id := topItemOf st.purchases cid,
          suggestions := suggestionsFor
            (churnScore (daysSinceLast st.purchases today cid))
            (topItemOf st.purchases cid) }
  else .error .notFound

lemma suggestionsFor_ne_nil (score : Int) (topItem : Option Nat) :
    suggestionsFor score topItem ≠ [] := by
  unfold suggestionsFor
  intro h
  have := congrArg List.length h
  simp [List.length_append] at this

lemma topItemOf_eq_none_iff (ps : List Purchase) (cid : Nat) :
    topItemOf ps cid = none ↔ ps.filter (fun p => p.client_id == cid) = [] := by
  unfold topItemOf
  rw [Option.map_eq_none', List.head?_eq_none_iff, rankBy_eq_nil_iff,
    List.map_eq_nil_iff]

/-- Claim C8: for an existing client the suggestion operation returns the
client's churn score, the days since last purchase, the most-purchased
item when one exists (`none` otherwise), and a non-empty ordered list of
typed suggestions; for a missing client it fails with NotFound. -/
theorem C8_client_suggestions (st : Store) (today : Int) (cid : Nat) :
    (st.hasClient cid = false → getClientSuggestionsB st today cid = .error .notFound) ∧
    (st.hasClient cid = true → ∃ r, getClientSuggestionsB st today cid = .ok r ∧
      r.client_id = cid ∧
      r.churn_score = churnScore (daysSinceLast st.purchases today cid) ∧
      r.last_purchase_days = daysSinceLast st.purchases today cid ∧
      r.top_item_id = topItemOf st.purchases cid ∧
      r.suggestions = suggestionsFor r.churn_score r.top_item_id ∧
      r.suggestions ≠ [] ∧
      (st.purchases.filter (fun p => p.client_id == cid) = [] → r.top_item_id = none) ∧
      (st.purchases.filter (fun p => p.client_id == cid) ≠ [] → r.top_item_id ≠ none)) := by
  constructor
  · intro h
    simp [getClientSuggestionsB, h]
  · intro h
    have hok : getClientSuggestionsB st today cid = .ok
        { client_id := cid,
          churn_score := churnScore (daysSinceLast st.purchases today cid),
          last_purchase_days := daysSinceLast st.purchases today cid,
          top_item_id := topItemOf st.purchases cid,
          suggestions := suggestionsFor
            (churnScore (daysSinceLast st.purchases today cid))
            (topItemOf st.purchases cid) } := by
      simp [getClientSuggestionsB, h]
    refine ⟨_, hok, rfl, rfl, rfl, rfl, rfl, ?_, ?_, ?_⟩
    · exact suggestionsFor_ne_nil _ _
    · intro hnil
      exact (topItemOf_eq_none_iff st.purchases cid).2 hnil
    · intro hnil hcontra
      exact hnil ((topItemOf_eq_none_iff st.purchases cid).1 hcontra)

/-- Witness for C8: on a store with one client (id 1) and one purchase of
item 2, the suggestion call succeeds with that data, and the lookup of a
missing client id 9 fails with NotFound. -/
theorem C8_client_suggestions_witness :
    getClientSuggestionsB
      ⟨[⟨1, "c", none, none⟩], [⟨2, "i", 100⟩], [⟨10, 1, 2, 1, 100, 0⟩]⟩ 0 9 =
      .error .notFound ∧
    (∃ r, getClientSuggestionsB
      ⟨[⟨1, "c", none, none⟩], [⟨2, "i", 100⟩], [⟨10, 1, 2, 1, 100, 0⟩]⟩ 0 1 =
      .ok r ∧ r.client_id = 1 ∧
      r.churn_score = churnScore (daysSinceLast [⟨10, 1, 2, 1, 100, 0⟩] 0 1) ∧
      r.last_purchase_days = daysSinceLast [⟨10, 1, 2, 1, 100, 0⟩] 0 1 ∧
      r.top_item_id = topItemOf [⟨10, 1, 2, 1, 100, 0⟩] 1) := by
  constructor
  · exact (C8_client_suggestions _ 0 9).1 (by decide)
  · obtain ⟨r, h1, h2, h3, h4, h5, _⟩ := (C8_client_suggestions
      ⟨[⟨1, "c", none, none⟩], [⟨2, "i", 100⟩], [⟨10, 1, 2, 1, 100, 0⟩]⟩ 0 1).2 (by decide)
    exact ⟨r, h1, h2, h3, h4, h5⟩

/-- Errors thrown by the frontend service layer before any HTTP request is
issued. -/
inductive FrontError where
  | emailInvalido
  | loginInvalido
deriving Repr, DecidableEq

/-- `isValidEmail` from `services/clients.ts` (lines 20-23): the regex
`^[^\s@]+@[^\s@]+\.[^\s@]+$` matched against the whole string — a
non-empty local part without whitespace or `@`, one `@`, and a domain
without whitespace or `@` containing a dot that is neither its first nor
its last character.  JavaScript's `\s` is modelled by
`Char.isWhitespace`. -/
def isValidEmail (s : String) : Bool :=
  let cs := s.data
  let lo := cs.takeWhile (fun c => !(c == '@'))
  match cs.dropWhile (fun c => !(c == '@')) with
  | [] => false
  | _ :: dom =>
      (!lo.isEmpty) && (!dom.isEmpty) &&
      cs.all (fun c => !c.isWhitespace) &&
      (!dom.contains '@') &&
      (dom.tail.dropLast.contains '.')

/-- `ClientCreate` body from `services/clients.ts`: name with optional
email and phone. -/
structure ClientBody where
  name : String
  email : Option String
  phone : Option String
deriving Repr, DecidableEq

/-- JavaScript truthiness of the optional `body.email` string: absent and
empty strings are falsy. -/
def emailTruthy (o : Option String) : Bool :=
  match o with
  | none => false
  | some s => !(s == "")

/-- `createClient` from `services/clients.ts` (lines 38-46): throws
`Email inválido` when `body.email && !isValidEmail(body.email)`, otherwise
forwards the body unchanged as `POST /clients/`. -/
def createClient (body : ClientBody) : Except FrontError ClientBody :=
  if emailTruthy body.email && !(isValidEmail (body.email.getD "")) then
    .error .emailInvalido
  else .ok body

/-- `updateClient` from `services/clients.ts` (lines 49-57): same email
check, then forwards id and partial body unchanged as `PUT /clients/id`. -/
def updateClient (id : String) (data : ClientBody) :
    Except FrontError (String × ClientBody) :=
  if emailTruthy data.email && !(isValidEmail (data.email.getD "")) then
    .error .emailInvalido
  else .ok (id, data)

/-- Counterexample to C9 as stated: the body with the present but empty
email string `""` does not match the email pattern, yet `createClient`
forwards it to the server instead of throwing, because the JavaScript
truthiness guard `body.email && ...` skips validation for the empty
string. -/
theorem C9_counterexample_empty_email :
    (⟨"Ana", some "", none⟩ : ClientBody).email = some "" ∧
    isValidEmail "" = false ∧
    createClient ⟨"Ana", some "", none⟩ = .ok ⟨"Ana", some "", none⟩ ∧
    updateClient "7" ⟨"Ana", some "", none⟩ = .ok ("7", ⟨"Ana", some "", none⟩) := by
  refine ⟨rfl, rfl, rfl, rfl⟩

/-- Claim C9 (amended): for every body whose email field is present,
non-empty and fails the email pattern, `createClient` and `updateClient`
throw `Email inválido` before issuing any HTTP request (the `.error`
result carries no forwarded body); bodies with an absent or empty email,
or an email matching the pattern, are forwarded unchanged. -/
theorem C9_email_validation (body : ClientBody) (id : String) :
    (∀ s, body.email = some s → s ≠ "" → isValidEmail s = false →
      createClient body = .error .emailInvalido ∧
      updateClient id body = .error .emailInvalido) ∧
    (emailTruthy body.email = false →
      createClient body = .ok body ∧ updateClient id body = .ok (id, body)) ∧
    (∀ s, body.email = some s → isValidEmail s = true →
      createClient body = .ok body ∧ updateClient id body = .ok (id, body)) := by
  refine ⟨?_, ?_, ?_⟩
  · intro s hs hne hval
    constructor
    · simp [createClient, hs, emailTruthy, hne, hval]
    · simp [updateClient, hs, emailTruthy, hne, hval]
  · intro htr
    constructor
    · simp [createClient, htr]
    · simp [updateClient, htr]
  · intro s hs hval
    constructor
    · simp [createClient, hs, hval, emailTruthy]
    · simp [updateClient, hs, hval, emailTruthy]

/-- Witness for C9 (amended): the malformed non-empty email `"foo"` is
rejected by both operations, and the well-formed email `"a@b.c"` is
forwarded unchanged. -/
theorem C9_email_validation_witness :
    createClient ⟨"Ana", some "foo", none⟩ = .error .emailInvalido ∧
    updateClient "7" ⟨"Ana", some "foo", none⟩ = .error .emailInvalido ∧
    createClient ⟨"Ana", some "a@b.c", none⟩ = .ok ⟨"Ana", some "a@b.c", none⟩ := by
  refine ⟨?_, ?_, ?_⟩
  · exact ((C9_email_validation ⟨"Ana", some "foo", none⟩ "7").1 "foo" rfl
      (by decide) (by decide)).1
  · exact ((C9_email_validation ⟨"Ana", some "foo", none⟩ "7").1 "foo" rfl
      (by decide) (by decide)).2
  · exact ((C9_email_validation ⟨"Ana", some "a@b.c", none⟩ "7").2.2 "a@b.c" rfl
      (by decide)).1

/-- Backend login response shape from `services/auth.ts`: either variant A
with `access_token` or variant B with `token`; `none` models an absent or
null field. -/
structure LoginResp where
  access_token : Option String
  token : Option String
  user : Option String
deriving Repr, DecidableEq

/-- Normalized `LoginResponse` from `services/auth.ts`. -/
structure LoginResult where
  token : String
  user : Option String
deriving Repr, DecidableEq

/-- JavaScript nullish coalescing `a ?? b` on optional strings: only an
absent or null left operand falls through (an empty string does not). -/
def nullish (a b : Option String) : Option String :=
  match a with
  | some s => some s
  | none => b

/-- `login` from `services/auth.ts` (lines 31-48 and 77-117):
`token = data.access_token ?? data.token`; if `!token` (absent or empty)
it throws `Respuesta de login no válida (falta token)`, otherwise it
returns `{ token, user }`. -/
def login (r : LoginResp) : Except FrontError LoginResult :=
  match nullish r.access_token r.token with
  | none => .error .loginInvalido
  | some t => if t == "" then .error .loginInvalido else .ok ⟨t, r.user⟩

/-- Claim C10: login returns the normalized pair whose token is the
response's `access_token` when that field is present and its `token` field
otherwise; when the response holds neither a non-empty `access_token` nor
a non-empty `token` it throws instead of returning, so a successful login
always carries a non-empty token. -/
theorem C10_login_normalization (r : LoginResp) :
    (∀ res, login r = .ok res →
      nullish r.access_token r.token = some res.token ∧
      res.token ≠ "" ∧ res.user = r.user) ∧
    (∀ a, r.access_token = some a → a ≠ "" → login r = .ok ⟨a, r.user⟩) ∧
    (r.access_token = none → ∀ b, r.token = some b → b ≠ "" →
      login r = .ok ⟨b, r.user⟩) ∧
    (r.access_token.getD "" = "" → r.token.getD "" = "" →
      login r = .error .loginInvalido) := by
  refine ⟨?_, ?_, ?_, ?_⟩
  · intro res hres
    unfold login at hres
    cases hnl : nullish r.access_token r.token with
    | none => rw [hnl] at hres; exact absurd hres (by simp)
    | some t =>
        rw [hnl] at hres
        by_cases ht : t = ""
        · subst ht; simp at hres
        · simp [ht] at hres
          subst hres
          exact ⟨rfl, ht, rfl⟩
  · intro a ha hane
    unfold login
    rw [show nullish r.access_token r.token = some a by simp [nullish, ha]]
    simp [hane]
  · intro hnone b hb hbne
    unfold login
    rw [show nullish r.access_token r.token = some b by simp [nullish, hnone, hb]]
    simp [hbne]
  · intro hacc htok
    unfold login
    cases ha : r.access_token with
    | none =>
        cases hb : r.token with
        | none => simp [nullish, ha, hb]
        | some b =>
            have hb0 : b = "" := by rw [hb] at htok; simpa using htok
            simp [nullish, ha, hb, hb0]
    | some a =>
        have ha0 : a = "" := by rw [ha] at hacc; simpa using hacc
        simp [nullish, ha, ha0]

/-- Witness for C10: a response carrying `access_token = "tok"` logs in
with token `"tok"`, a variant-B response carrying only `token = "t2"` logs
in with `"t2"`, and the empty response throws. -/
theorem C10_login_normalization_witness :
    login ⟨some "tok", some "other", none⟩ = .ok ⟨"tok", none⟩ ∧
    login ⟨none, some "t2", none⟩ = .ok ⟨"t2", none⟩ ∧
    login ⟨none, none, none⟩ = .error .loginInvalido := by
  refine ⟨?_, ?_, ?_⟩
  · exact (C10_login_normalization ⟨some "tok", some "other", none⟩).2.1 "tok" rfl
      (by decide)
  · exact (C10_login_normalization ⟨none, some "t2", none⟩).2.2.1 rfl "t2" rfl
      (by decide)
  · exact (C10_login_normalization ⟨none, none, none⟩).2.2.2 rfl rfl

end LoyalLight
